import Mathlib

/-!
Verification of the dropship SellerCloud / QuickBooks invoice-report pipeline.

Shallow embedding of the Python sources:
  - `seller_cloud_data.py` (`_enrich_order_with_sc`, `get_sellercloud_data`)
  - `dropship_db.py` (`_ensure_order_id`)
  - `main.py` (the per-order invoice loop)
  - `invoice.py` (`QbInvoice.check_exist`)
  - `df_creator.py` (`_add_aag_rows`, `_fallback_item_price`)
  - `file_handler.py` (`FileHandler.save_data_to_file`)
  - `decimal_rounding.py` (`round_to_decimal`)

Monetary values are modelled as exact rationals (Python floats fed through
exact decimal literals); machine strings as `String` or `List Char`.
Python truthiness on numbers (`x or y` falls through when `x` is `None` or
zero) is modelled explicitly by the `pyOr*` helpers.
-/

/-- Python `a or b` for an integer `a`: `a` when non-zero, else `b`. -/
def pyOrInt (a b : ℤ) : ℤ :=
  if a = 0 then b else a

/-- Python `a or b` where `a` is an optional integer: `None` and `0` fall through. -/
def pyOrOptInt (a : Option ℤ) (b : ℤ) : ℤ :=
  match a with
  | none => b
  | some n => if n = 0 then b else n

/-- Python `a or b` where `a` is an optional string: `None` and `""` fall through. -/
def pyOrOptStr (a b : Option String) : Option String :=
  match a with
  | none => b
  | some s => if s = "" then b else some s

/-- A line item `(sku, quantity, unit_cost)`; the cost component is `none`
for a two-component tuple `(sku, qty)` (`df_creator.py` reads it as
`rest[0] if rest else None`). -/
def Item : Type := String × ℤ × Option ℚ

instance : DecidableEq Item := by unfold Item; infer_instance

/-- An order dict as assembled by `dropship_db.get_invoice_ready_orders` and
mutated by the later stages. `tax` and `subtotal` start as the falsy
placeholder `""` (modelled `none`) and are set by enrichment. -/
structure Order where
  purchase_order_number : String
  order_id : String
  sellercloud_order_id : String
  items : List Item
  tax : Option ℚ
  subtotal : Option ℚ
  shipping : Option ℚ
  tracking_number : String
  ship_date : String
  deriving DecidableEq

/-- `TotalInfo` of a SellerCloud order: optional `Tax` and `GrandTotal`. -/
structure ScTotals where
  Tax : Option ℚ
  GrandTotal : Option ℚ
  deriving DecidableEq

/-- One entry of a SellerCloud order's `OrderItems`. -/
structure ScItem where
  ProductIDOriginal : Option String
  SKU : Option String
  ProductSKU : Option String
  LineTotal : Option ℚ
  Qty : Option ℤ
  Quantity : Option ℤ
  deriving DecidableEq

/-- A SellerCloud order body: `TotalInfo` and `OrderItems` (either may be
missing / `None`, modelled by `Option` and the empty list). -/
structure ScOrder where
  TotalInfo : Option ScTotals
  OrderItems : List ScItem
  deriving DecidableEq

/-- Dict key of an OMS item:
`it.get("ProductIDOriginal") or it.get("SKU") or it.get("ProductSKU")`. -/
def scItemKey (it : ScItem) : Option String :=
  pyOrOptStr it.ProductIDOriginal (pyOrOptStr it.SKU it.ProductSKU)

/-- `int(it.get("Qty") or it.get("Quantity") or 0)`. -/
def scItemQty (it : ScItem) : ℤ :=
  pyOrOptInt it.Qty (pyOrOptInt it.Quantity 0)

/-- `float(it.get("LineTotal") or 0.0)` (zero and `None` both give `0`). -/
def scItemLineTotal (it : ScItem) : ℚ :=
  it.LineTotal.getD 0

/-- The `id_to_totals` dict built by `_enrich_order_with_sc`:
`sku -> (line_total, qty)`, last binding wins (Python dict comprehension),
missing keys default to `(0.0, 0)` via `dict.get(sku, (0.0, 0))`. -/
def idToTotals (sc : ScOrder) (key : Option String) : ℚ × ℤ :=
  (((sc.OrderItems.map fun it =>
      (scItemKey it, (scItemLineTotal it, scItemQty it))).reverse.find?
        fun p => p.1 == key).map Prod.snd).getD (0, 0)

/-- The resolved quantity `q = qty or sc_qty or 0` of one local item against
the OMS lookup. -/
def resolvedQty (sc : ScOrder) (sku : String) (qty : ℤ) : ℤ :=
  pyOrInt qty (pyOrInt (idToTotals sc (some sku)).2 0)

/-- The item loop of `_enrich_order_with_sc`: rewrite each `(sku, qty, _)`
to `(sku, qty or q, line_total / q)`, failing (`return False`) as soon as a
resolved quantity is `≤ 0` — the division is only reached for `q > 0`. -/
def enrichItems (sc : ScOrder) : List Item → Option (List Item)
  | [] => some []
  | (sku, qty, _) :: rest =>
    let lt := (idToTotals sc (some sku)).1
    let q := resolvedQty sc sku qty
    if q ≤ 0 then none
    else (enrichItems sc rest).map fun tail => (sku, pyOrInt qty q, some (lt / (q : ℚ))) :: tail

/-- `_enrich_order_with_sc(order, sc_order)`: set `tax` and `subtotal` from
`TotalInfo` (`or {}` for a missing block, `or 0.0` per field), then rewrite
the items; `none` models the `False` return. -/
def enrich_order_with_sc (order : Order) (sc_order : ScOrder) : Option Order :=
  let totals := sc_order.TotalInfo.getD ⟨none, none⟩
  let o1 : Order :=
    { order with tax := some (totals.Tax.getD 0), subtotal := some (totals.GrandTotal.getD 0) }
  (enrichItems sc_order o1.items).map fun ni => { o1 with items := ni }

/-- The order of claim C1: one item `("SKU1", 2)` awaiting enrichment. -/
def c1Order : Order :=
  { purchase_order_number := "PO1", order_id := "XPO1", sellercloud_order_id := "900"
    items := [("SKU1", 2, some 0)], tax := none, subtotal := none, shipping := some 0
    tracking_number := "T1", ship_date := "2025/07/07" }

/-- The OMS response of claim C1: `LineTotal=19.98, Qty=2` for SKU1,
`Tax=1.60`, `GrandTotal=23.18`. -/
def c1ScOrder : ScOrder :=
  { TotalInfo := some ⟨some (160/100), some (2318/100)⟩
    OrderItems := [{ ProductIDOriginal := some "SKU1", SKU := none, ProductSKU := none
                     LineTotal := some (1998/100), Qty := some 2, Quantity := none }] }

/-- C1: enrichment of the C1 scenario succeeds; the item becomes
`("SKU1", 2, 9.99)` with unit cost exactly `19.98 / 2` (no rounding),
`tax` becomes `1.60` and `subtotal` becomes the OMS `GrandTotal 23.18`. -/
theorem c1_enrich_scenario :
    enrich_order_with_sc c1Order c1ScOrder =
      some { c1Order with
               items := [("SKU1", 2, some ((1998/100) / 2))]
               tax := some (160/100), subtotal := some (2318/100) } ∧
    ((1998 : ℚ)/100) / 2 = 999/100 := by
  constructor
  · simp [enrich_order_with_sc, c1Order, c1ScOrder, enrichItems, idToTotals, resolvedQty,
      scItemKey, scItemQty, scItemLineTotal, pyOrInt, pyOrOptInt, pyOrOptStr]
  · norm_num

/-- Any item whose resolved quantity is `≤ 0` makes the item loop fail. -/
lemma enrichItems_eq_none_of_bad (sc : ScOrder) (l : List Item)
    (h : ∃ it ∈ l, resolvedQty sc it.1 it.2.1 ≤ 0) :
    enrichItems sc l = none := by
  induction l with
  | nil => rcases h with ⟨it, hmem, _⟩; cases hmem
  | cons hd tl ih =>
    obtain ⟨it, hmem, hq⟩ := h
    obtain ⟨sku, qty, c⟩ := hd
    rcases List.mem_cons.mp hmem with heq | htl
    · subst heq
      simp only [enrichItems]
      rw [if_pos hq]
    · simp only [enrichItems]
      by_cases hq0 : resolvedQty sc sku qty ≤ 0
      · rw [if_pos hq0]
      · rw [if_neg hq0, ih ⟨it, htl, hq⟩]
        rfl

/-- C2: whenever some item of the order has resolved quantity
`q = qty or sc_qty or 0 ≤ 0`, `_enrich_order_with_sc` returns the failure
value `False` (the order is then classified as an item mismatch by
`get_sellercloud_data`); the guard `if q <= 0: return False` precedes the
division `line_total / q`, so the unit-cost division is never evaluated at
a non-positive quantity. -/
theorem c2_enrich_nonpositive_qty_fails (order : Order) (sc_order : ScOrder)
    (h : ∃ it ∈ order.items, resolvedQty sc_order it.1 it.2.1 ≤ 0) :
    enrich_order_with_sc order sc_order = none := by
  have h2 := enrichItems_eq_none_of_bad sc_order order.items h
  simp [enrich_order_with_sc, h2]

/-- An order whose single item has local quantity `0` (and no OMS fallback). -/
def c2BadOrder : Order :=
  { c1Order with items := [("SKU1", 0, some 0)] }

/-- C2 witness: a concrete order with a zero local and OMS quantity is
rejected by enrichment. -/
theorem c2_enrich_nonpositive_qty_fails_witness :
    (∃ it ∈ c2BadOrder.items, resolvedQty ⟨none, []⟩ it.1 it.2.1 ≤ 0) ∧
    enrich_order_with_sc c2BadOrder ⟨none, []⟩ = none := by
  refine ⟨⟨("SKU1", 0, some 0), ?_, ?_⟩, ?_⟩
  · simp [c2BadOrder, c1Order]
  · simp [resolvedQty, idToTotals, pyOrInt]
  · exact c2_enrich_nonpositive_qty_fails _ _
      ⟨("SKU1", 0, some 0), by simp [c2BadOrder, c1Order],
        by simp [resolvedQty, idToTotals, pyOrInt]⟩

/-- The failing input of C3: an order with one item `("SKUX", 1)` whose SKU
is absent from the OMS item lookup (the OMS order has no items). -/
def c3Order : Order :=
  { purchase_order_number := "PO3", order_id := "XPO3", sellercloud_order_id := "903"
    items := [("SKUX", 1, some 0)], tax := none, subtotal := none, shipping := some 0
    tracking_number := "T3", ship_date := "2025/07/07" }

/-- C3 (code bug): with item SKU `SKUX` missing from the OMS lookup but a
positive local quantity, `_enrich_order_with_sc` SUCCEEDS — the lookup
default `(0.0, 0)` yields `q = 1 > 0` and unit cost `0.0 / 1 = 0` — so the
order is kept, contradicting the claim (and the docstring of
`get_sellercloud_data`, "Drops orders with missing/mismatched SKUs") that a
missing SKU classifies the order `item_mismatch` and drops it. -/
theorem c3_missing_sku_kept_with_zero_cost :
    enrich_order_with_sc c3Order ⟨none, []⟩ =
      some { c3Order with items := [("SKUX", 1, some 0)]
                          tax := some 0, subtotal := some 0 } := by
  simp [enrich_order_with_sc, c3Order, enrichItems, idToTotals, resolvedQty,
    scItemKey, scItemQty, scItemLineTotal, pyOrInt, pyOrOptInt, pyOrOptStr]

/-- `DropshipDb._ensure_order_id(code, purchase_order_number)` on strings as
character lists: if the first `len(code)` characters of the PO number equal
the code, return the PO number unchanged, else return `code + po`. -/
def ensure_order_id (code purchase_order_number : List Char) : List Char :=
  if purchase_order_number.take code.length = code then purchase_order_number
  else code ++ purchase_order_number

/-- C6: order-id normalization is idempotent — a second application of
`_ensure_order_id` with the same partner code changes nothing (never
double-prefixes). -/
theorem c6_ensure_order_id_idempotent (code po : List Char) :
    ensure_order_id code (ensure_order_id code po) = ensure_order_id code po := by
  by_cases h : po.take code.length = code
  · simp [ensure_order_id, h]
  · simp [ensure_order_id, h, List.take_left]

/-- Python decimal `ROUND_HALF_UP` at integer precision: round to the
nearest integer, half-value ties going away from zero. -/
def round_half_away (x : ℚ) : ℤ :=
  if 0 ≤ x then ⌊x + 1/2⌋ else ⌈x - 1/2⌉

/-- `round_to_decimal(number)` from `decimal_rounding.py`:
`Decimal(str(number)).quantize(Decimal("0.01"), rounding=ROUND_HALF_UP)`
followed by `float(...)` — quantization of the exact decimal value of the
input to two decimal places with half-up (away-from-zero) ties. -/
def round_to_decimal (number : ℚ) : ℚ :=
  (round_half_away (100 * number) : ℚ) / 100

/-- `round_half_away` is an odd function (ties go away from zero on both
sides). -/
lemma round_half_away_neg (x : ℚ) : round_half_away (-x) = - round_half_away x := by
  unfold round_half_away
  rcases lt_trichotomy x 0 with h | h | h
  · rw [if_neg (not_le.mpr h), if_pos (by linarith)]
    rw [show -x + 1/2 = -(x - 1/2) by ring, Int.floor_neg]
  · subst h
    norm_num
  · rw [if_neg (not_le.mpr (by linarith)), if_pos h.le]
    rw [show -x - 1/2 = -(x + 1/2) by ring, Int.ceil_neg]

/-- C10: `round_to_decimal(2.005) = 2.01`; the function is odd (so ties
round away from zero on negative inputs exactly as on positive ones); and
every exact two-decimal half-value tie `k/100 + 1/200` with `k ≥ 0` rounds
up to `(k+1)/100`. -/
theorem c10_round_half_up :
    round_to_decimal (2005/1000) = 201/100 ∧
    (∀ q : ℚ, round_to_decimal (-q) = - round_to_decimal q) ∧
    (∀ k : ℤ, 0 ≤ k → round_to_decimal ((k : ℚ)/100 + 1/200) = ((k : ℚ) + 1)/100) := by
  refine ⟨?_, ?_, ?_⟩
  · unfold round_to_decimal round_half_away
    rw [show (100:ℚ) * (2005/1000) + 1/2 = ((201 : ℤ) : ℚ) by norm_num]
    rw [if_pos (by norm_num), Int.floor_intCast]
    norm_num
  · intro q
    unfold round_to_decimal
    rw [show 100 * -q = -(100 * q) by ring, round_half_away_neg]
    push_cast
    ring
  · intro k hk
    unfold round_to_decimal round_half_away
    rw [show (100:ℚ) * ((k : ℚ)/100 + 1/200) = (k : ℚ) + 1/2 by ring]
    have hk' : (0:ℚ) ≤ (k : ℚ) + 1/2 := by
      have : (0:ℚ) ≤ (k : ℚ) := by exact_mod_cast hk
      linarith
    rw [if_pos hk', show (k : ℚ) + 1/2 + 1/2 = ((k + 1 : ℤ) : ℚ) by push_cast; ring,
      Int.floor_intCast]
    push_cast
    ring

/-- C10 witness: the tie case applied at `k = 200`, i.e. the monetary value
`2.005` rounds to `2.01`. -/
theorem c10_round_half_up_witness :
    (0 : ℤ) ≤ 200 ∧ round_to_decimal (((200 : ℤ) : ℚ)/100 + 1/200) = (((200 : ℤ) : ℚ) + 1)/100 :=
  ⟨by decide, c10_round_half_up.2.2 200 (by decide)⟩

/-- A QuickBooks invoice as returned by `Invoice.filter(DocNumber=...)`. -/
structure QbInv where
  DocNumber : String
  deriving DecidableEq

/-- `QbInvoice.check_exist(invoice_number)`: returns `invs[0] if invs else
False`; any exception raised inside the query is caught, logged and turned
into `False` as well.  The transport outcome is the argument: `.error e`
models a raised exception, `.ok l` the list returned by the query; `none`
models the `False` sentinel. -/
def check_exist (resp : Except String (List QbInv)) : Option QbInv :=
  match resp with
  | .error _ => none
  | .ok invs => invs.head?

/-- How the per-order loop of `main.main` files one order. -/
inductive Classification
  | alreadyInvoiced
  | unableToInvoice
  | processed
  deriving DecidableEq

/-- Outcome of one iteration of the per-order loop: the classification and
the document numbers of invoices created in the accounting system by this
iteration. -/
structure StepResult where
  classification : Classification
  createdInvoices : List String
  deriving DecidableEq

/-- One iteration of the per-order loop in `main.main`.  `asQuery d` is the
accounting-system response to the existence query for document number `d`;
`populate_ok order` tells whether `df_creator.populate_df(order)` returns
`True`.  The call `api.create(order)` is commented out in the source:
`invoice_id` is the constant string `"TEST_ONLY_NO_QB"`, so the loop never
creates an invoice and the `if not invoice_id` guard tests a non-empty
constant. -/
def mainLoopOrder (asQuery : String → Except String (List QbInv))
    (populate_ok : Order → Bool) (order : Order) : StepResult :=
  match check_exist (asQuery order.order_id) with
  | some _ => ⟨.alreadyInvoiced, []⟩
  | none =>
    let invoice_id := "TEST_ONLY_NO_QB"
    if invoice_id = "" then ⟨.unableToInvoice, []⟩
    else if populate_ok order then ⟨.processed, []⟩
    else ⟨.unableToInvoice, []⟩

/-- C5: the invoice-creation call is disabled — no iteration ever creates an
invoice in the accounting system, and (the falsy-`invoice_id` branch being
unreachable behind the constant `"TEST_ONLY_NO_QB"`) an order lands in
`unable_to_invoice` exactly when the existence check finds nothing and
`populate_df` fails. -/
theorem c5_no_invoice_created (asQuery : String → Except String (List QbInv))
    (populate_ok : Order → Bool) (order : Order) :
    (mainLoopOrder asQuery populate_ok order).createdInvoices = [] ∧
    ((mainLoopOrder asQuery populate_ok order).classification = .unableToInvoice ↔
      check_exist (asQuery order.order_id) = none ∧ populate_ok order = false) := by
  cases hc : check_exist (asQuery order.order_id) with
  | none => cases hp : populate_ok order <;> simp [mainLoopOrder, hc, hp]
  | some inv => simp [mainLoopOrder, hc]

/-- An accounting system holding no invoice at all: every existence query
succeeds with an empty result list. -/
def emptyAsQuery : String → Except String (List QbInv) := fun _ => .ok []

/-- C4 counterexample: starting from an accounting system with no invoice,
the first run over `c1Order` creates nothing (`createdInvoices = []`), so
the second, identical run sees the same accounting state — and classifies
the order `processed`, not `already_invoiced`: the existence check does not
find an invoice on the second run, contrary to the claim. -/
theorem c4_second_run_not_already_invoiced :
    (mainLoopOrder emptyAsQuery (fun _ => true) c1Order).createdInvoices = [] ∧
    (mainLoopOrder emptyAsQuery (fun _ => true) c1Order).classification = .processed ∧
    (mainLoopOrder emptyAsQuery (fun _ => true) c1Order).classification ≠ .alreadyInvoiced := by
  refine ⟨?_, ?_, ?_⟩ <;> simp [mainLoopOrder, check_exist, emptyAsQuery]

/-- C4 (amended): the loop body never creates an invoice, so across two runs
at most one invoice per `order_id` exists trivially (zero are created), and
an order is classified `already_invoiced` exactly when an invoice with its
`order_id` already exists in the accounting system beforehand (found by the
existence check) — not as a consequence of a previous run. -/
theorem c4_no_create_and_already_invoiced_iff
    (asQuery : String → Except String (List QbInv))
    (populate_ok : Order → Bool) (order : Order) :
    (mainLoopOrder asQuery populate_ok order).createdInvoices = [] ∧
    ((mainLoopOrder asQuery populate_ok order).createdInvoices ++
        (mainLoopOrder asQuery populate_ok order).createdInvoices).length ≤ 1 ∧
    ((mainLoopOrder asQuery populate_ok order).classification = .alreadyInvoiced ↔
      ∃ inv, check_exist (asQuery order.order_id) = some inv) := by
  cases hc : check_exist (asQuery order.order_id) with
  | none => cases hp : populate_ok order <;> simp [mainLoopOrder, hc, hp]
  | some inv => simp [mainLoopOrder, hc]

/-- C9: `check_exist` is total over every transport outcome — a raised
exception gives the `False` sentinel (`none`), an empty result list gives
`False`, a non-empty list gives its first invoice — and in the pipeline a
found invoice classifies the order `already_invoiced` (and it is skipped:
no creation, no row population). -/
theorem c9_check_exist_total :
    (∀ e : String, check_exist (.error e) = none) ∧
    check_exist (.ok []) = none ∧
    (∀ (inv : QbInv) (invs : List QbInv), check_exist (.ok (inv :: invs)) = some inv) ∧
    (∀ (asQuery : String → Except String (List QbInv)) (populate_ok : Order → Bool)
        (order : Order) (inv : QbInv),
      check_exist (asQuery order.order_id) = some inv →
      (mainLoopOrder asQuery populate_ok order).classification = .alreadyInvoiced) := by
  refine ⟨fun e => rfl, rfl, fun inv invs => rfl, ?_⟩
  intro asQuery populate_ok order inv h
  simp [mainLoopOrder, h]

/-- An accounting system already holding an invoice for every document
number queried. -/
def foundAsQuery : String → Except String (List QbInv) := fun d => .ok [⟨d⟩]

/-- C9 witness: with an invoice present for `c1Order.order_id`, the
existence check finds it and the loop classifies the order
`already_invoiced`. -/
theorem c9_check_exist_total_witness :
    check_exist (foundAsQuery c1Order.order_id) = some ⟨c1Order.order_id⟩ ∧
    (mainLoopOrder foundAsQuery (fun _ => true) c1Order).classification = .alreadyInvoiced := by
  refine ⟨rfl, ?_⟩
  exact c9_check_exist_total.2.2.2 foundAsQuery (fun _ => true) c1Order ⟨c1Order.order_id⟩ rfl

/-- Key of a dropshipper bucket: `(dropshipper_code, ftp_folder_name)`. -/
abbrev DropshipperKey := String × String

/-- One dropshipper bucket of ready-to-invoice orders. -/
structure Bucket where
  file_format_name : String
  ftp_folder_name : String
  orders : List Order
  deriving DecidableEq

/-- The per-order body of the loop in `get_sellercloud_data`: an order is
kept (in enriched form) exactly when `_fetch_sc_order` returns a parsed
body (`fetch` is the oracle for the fetch outcome per SellerCloud id) and
`_enrich_order_with_sc` succeeds; every failure path (`continue`) drops
the order. -/
def keepOrder (fetch : String → Option ScOrder) (order : Order) : Option Order :=
  match fetch order.sellercloud_order_id with
  | none => none
  | some sc => enrich_order_with_sc order sc

/-- The per-bucket body of `get_sellercloud_data`: replace the orders with
the kept ones, or remove the bucket (`pop`) when none survive. -/
def filterBucket (fetch : String → Option ScOrder) (kb : DropshipperKey × Bucket) :
    Option (DropshipperKey × Bucket) :=
  let kept := kb.2.orders.filterMap (keepOrder fetch)
  if kept.isEmpty then none else some (kb.1, { kb.2 with orders := kept })

/-- `get_sellercloud_data(ready_to_invoice_orders)` over the bucket mapping
(modelled as an association list). -/
def get_sellercloud_data (fetch : String → Option ScOrder)
    (ready_to_invoice_orders : List (DropshipperKey × Bucket)) :
    List (DropshipperKey × Bucket) :=
  ready_to_invoice_orders.filterMap (filterBucket fetch)

/-- `FileHandler.save_data_to_file(df, ftp_folder_name)`: returns `False`
(`none`) when the dataframe is empty, else writes
`tmp/<folder>/<datetime>/Invoice_<date>.csv` and returns that path. -/
def save_data_to_file {α : Type} (invoice_data_df : List α)
    (ftp_folder_name date_str datetime_str : String) : Option String :=
  if invoice_data_df.isEmpty then none
  else some ("tmp/" ++ ftp_folder_name ++ "/" ++ datetime_str ++ "/Invoice_" ++ date_str ++ ".csv")

/-- The `file_paths` accumulation of `main.main`: a path is appended only
when `save_data_to_file` returned one (the falsy `False` is skipped). -/
def collectFilePaths {α : Type} (render : Bucket → List α) (date_str datetime_str : String)
    (buckets : List (DropshipperKey × Bucket)) : List String :=
  buckets.filterMap fun kb =>
    save_data_to_file (render kb.2) kb.2.ftp_folder_name date_str datetime_str

/-- C7: (i) every bucket still present after `get_sellercloud_data` has a
non-empty order list — a bucket whose orders were all dropped is removed
from the mapping; (ii) an empty row set produces no output file; (iii) every
path handed to the delivery sink comes from a bucket whose rendered row set
is non-empty. -/
theorem c7_empty_buckets_eliminated :
    (∀ (fetch : String → Option ScOrder) (ready : List (DropshipperKey × Bucket))
        (kb : DropshipperKey × Bucket),
      kb ∈ get_sellercloud_data fetch ready → kb.2.orders ≠ []) ∧
    (∀ (α : Type) (folder date_str datetime_str : String),
      save_data_to_file ([] : List α) folder date_str datetime_str = none) ∧
    (∀ (α : Type) (render : Bucket → List α) (date_str datetime_str : String)
        (buckets : List (DropshipperKey × Bucket)) (p : String),
      p ∈ collectFilePaths render date_str datetime_str buckets →
      ∃ kb ∈ buckets, render kb.2 ≠ []) := by
  refine ⟨?_, ?_, ?_⟩
  · intro fetch ready kb hmem
    obtain ⟨ab, hab, hf⟩ := List.mem_filterMap.mp hmem
    unfold filterBucket at hf
    by_cases he : (ab.2.orders.filterMap (keepOrder fetch)).isEmpty
    · simp only [he, if_pos] at hf
      cases hf
    · simp only [he, if_neg, Bool.false_eq_true, not_false_iff, Option.some.injEq] at hf
      rw [← hf]
      simpa [List.isEmpty_iff] using he
  · intro α folder date_str datetime_str
    simp [save_data_to_file]
  · intro α render date_str datetime_str buckets p hmem
    obtain ⟨kb, hkb, hf⟩ := List.mem_filterMap.mp hmem
    refine ⟨kb, hkb, ?_⟩
    unfold save_data_to_file at hf
    by_cases he : (render kb.2).isEmpty
    · simp only [he, if_pos] at hf
      cases hf
    · simpa [List.isEmpty_iff] using he

/-- A concrete bucket for the C7 witness: one order that fetches and
enriches successfully. -/
def c7Bucket : Bucket :=
  { file_format_name := "aag", ftp_folder_name := "F", orders := [c3Order] }

/-- The order of `c7Bucket` after enrichment against an empty OMS body. -/
def c7Enriched : Order :=
  { c3Order with tax := some 0, subtotal := some 0 }

/-- C7 witness: a surviving bucket produced by `get_sellercloud_data` has a
non-empty order list, and the empty row set produces no file. -/
theorem c7_empty_buckets_eliminated_witness :
    ((("C", "F"), { c7Bucket with orders := [c7Enriched] }) ∈
        get_sellercloud_data (fun _ => some ⟨none, []⟩) [(("C", "F"), c7Bucket)]) ∧
    ({ c7Bucket with orders := [c7Enriched] } : Bucket).orders ≠ [] ∧
    save_data_to_file ([] : List String) "F" "d" "dt" = none := by
  have hmem : ((("C", "F"), { c7Bucket with orders := [c7Enriched] }) ∈
      get_sellercloud_data (fun _ => some ⟨none, []⟩) [(("C", "F"), c7Bucket)]) := by
    simp [get_sellercloud_data, filterBucket, keepOrder, c7Bucket, c7Enriched, c3Order,
      enrich_order_with_sc, enrichItems, idToTotals, resolvedQty, pyOrInt]
  exact ⟨hmem, c7_empty_buckets_eliminated.1 (fun _ => some ⟨none, []⟩) _ _ hmem,
    c7_empty_buckets_eliminated.2.1 String "F" "d" "dt"⟩

/-- One output row of the `aag` layout. -/
structure AagRow where
  invoice_number : String
  so_number : String
  date : String
  customer : String
  carrier_name : String
  tracking_number : String
  item : String
  qty : ℤ
  price : ℚ
  deriving DecidableEq

/-- `float(f"{x:.3f}")`: keep three decimal places (round to the nearest
thousandth). -/
def round3 (x : ℚ) : ℚ :=
  (round (1000 * x) : ℚ) / 1000

/-- `(subtotal - tax - shipping)` with Python falsy defaults
(`float(order.get(k) or 0.0)`). -/
def fallbackBase (order : Order) : ℚ :=
  order.subtotal.getD 0 - order.tax.getD 0 - order.shipping.getD 0

/-- `DfCreator._fallback_item_price(order, n_items, unit_cost)`: a positive
unit cost is used as-is; otherwise the even split
`(subtotal - tax - shipping) / max(n_items, 1)`. -/
def fallback_item_price (order : Order) (n_items : ℕ) (unit_cost : Option ℚ) : ℚ :=
  match unit_cost with
  | some c => if 0 < c then c else fallbackBase order / ((max n_items 1 : ℕ) : ℚ)
  | none => fallbackBase order / ((max n_items 1 : ℕ) : ℚ)

/-- `DfCreator._add_aag_rows(order)`: the shared `base` fields, one row per
item with `price = price_each * max(qty, 1)` kept to three decimals, then a
`Taxes` row and a `SHIPPING` row, each with quantity 1.  (`_normalize_date`
is the identity on the `YYYY/MM/DD` strings produced upstream by
`get_invoice_ready_orders`, so the date field carries `ship_date` through.)
The `item`/`qty`/`price` fields of `base` are placeholders overwritten in
every emitted row. -/
def add_aag_rows (order : Order) : List AagRow :=
  let base : AagRow :=
    { invoice_number := order.order_id, so_number := order.purchase_order_number
      date := order.ship_date, customer := "auto_accessories_garage"
      carrier_name := "FEDEX_GROUND", tracking_number := order.tracking_number
      item := "", qty := 0, price := 0 }
  let n_items := max order.items.length 1
  (order.items.map fun it =>
    let qty := it.2.1
    let price_each := fallback_item_price order n_items it.2.2
    let line_price := round3 (price_each * ((max qty 1 : ℤ) : ℚ))
    { base with item := it.1, qty := qty, price := line_price })
  ++ [{ base with item := "Taxes", qty := 1, price := order.tax.getD 0 },
      { base with item := "SHIPPING", qty := 1, price := order.shipping.getD 0 }]

/-- The counterexample order for C8: `aag` layout totals
`subtotal=100, tax=10, shipping=5`, a single item of quantity 2 with no
unit cost. -/
def c8Order : Order :=
  { purchase_order_number := "PO8", order_id := "APO8", sellercloud_order_id := "908"
    items := [("A", 2, none)], tax := some 10, subtotal := some 100, shipping := some 5
    tracking_number := "T8", ship_date := "2025/07/07" }

/-- C8 counterexample: for `c8Order` — no item carries a positive unit
cost — the emitted row prices are `[round3(85·2), 10, 5] = [170, 10, 5]`,
summing to `185`, not the subtotal `100`; the gap `85` is far beyond any
three-decimal rounding, so the claimed sum identity fails as soon as an
item quantity exceeds 1 (the fallback splits by item count, but the row
price multiplies the split by the quantity). -/
theorem c8_qty_two_breaks_sum :
    (∀ it ∈ c8Order.items, ∀ c : ℚ, it.2.2 = some c → ¬ 0 < c) ∧
    ((add_aag_rows c8Order).map AagRow.price).sum = 185 ∧
    c8Order.subtotal.getD 0 = 100 ∧
    ¬ |(((add_aag_rows c8Order).map AagRow.price).sum : ℚ) - c8Order.subtotal.getD 0| ≤
        (c8Order.items.length : ℚ) / 2000 := by
  have hsum : ((add_aag_rows c8Order).map AagRow.price).sum = 185 := by
    simp only [add_aag_rows, c8Order, fallback_item_price, fallbackBase, round3]
    norm_num [round_eq]
  refine ⟨?_, hsum, by simp [c8Order], ?_⟩
  · intro it hit c hc
    simp [c8Order] at hit
    subst hit
    simp at hc
  · rw [hsum]
    simp [c8Order]
    norm_num

/-- Summing a map whose value is constant on the list. -/
lemma sum_map_const_of {α : Type} (l : List α) (f : α → ℚ) (c : ℚ)
    (h : ∀ x ∈ l, f x = c) : (l.map f).sum = (l.length : ℚ) * c := by
  induction l with
  | nil => simp
  | cons hd tl ih =>
    simp only [List.map_cons, List.sum_cons, List.length_cons]
    rw [h hd (List.mem_cons_self hd tl), ih fun x hx => h x (List.mem_cons_of_mem hd hx)]
    push_cast
    ring

/-- Keeping three decimals moves a value by at most half a thousandth. -/
lemma abs_round3_sub_le (x : ℚ) : |round3 x - x| ≤ 1/2000 := by
  have h : |(round (1000 * x) : ℚ) - 1000 * x| ≤ 1/2 := by
    rw [abs_sub_comm]
    exact abs_sub_round (1000 * x)
  unfold round3
  rw [show (round (1000 * x) : ℚ)/1000 - x = ((round (1000 * x) : ℚ) - 1000 * x)/1000 by ring,
    abs_div, show |(1000 : ℚ)| = 1000 by norm_num]
  linarith

/-- C8 (amended): for an `aag` order with at least one item, in which no
item carries a positive unit cost and every item has quantity 1, each item
row's price is the even split `(subtotal - tax - shipping) / item_count`
kept to three decimals, and the sum of all emitted row prices (item rows
plus the Taxes and SHIPPING rows) differs from `subtotal` by at most the
accumulated three-decimal rounding `item_count / 2000`.  (Quantities larger
than 1 break the identity — see the counterexample.) -/
theorem c8_unit_qty_fallback_sum (order : Order)
    (hnc : ∀ it ∈ order.items, ∀ c : ℚ, it.2.2 = some c → c ≤ 0)
    (hq : ∀ it ∈ order.items, it.2.1 = 1)
    (hne : order.items ≠ []) :
    ((add_aag_rows order).map AagRow.price).sum =
      (order.items.length : ℚ) *
          round3 (fallbackBase order / (order.items.length : ℚ)) +
        order.tax.getD 0 + order.shipping.getD 0 ∧
    |((add_aag_rows order).map AagRow.price).sum - order.subtotal.getD 0| ≤
      (order.items.length : ℚ) / 2000 := by
  have hn1 : 1 ≤ order.items.length := by
    cases h : order.items with
    | nil => exact absurd h hne
    | cons a l => simp [h]
  have hmax : max order.items.length 1 = order.items.length := Nat.max_eq_left hn1
  have hrow : ∀ it ∈ order.items,
      (fun it : Item =>
        round3 (fallback_item_price order (max order.items.length 1) it.2.2 *
          ((max it.2.1 1 : ℤ) : ℚ))) it =
      round3 (fallbackBase order / (order.items.length : ℚ)) := by
    intro it hit
    have hq1 : it.2.1 = 1 := hq it hit
    have hfb : fallback_item_price order (max order.items.length 1) it.2.2 =
        fallbackBase order / (order.items.length : ℚ) := by
      cases hc : it.2.2 with
      | none => simp [fallback_item_price, hmax, Nat.max_eq_left hn1]
      | some c =>
        have := hnc it hit c hc
        simp [fallback_item_price, hmax, Nat.max_eq_left hn1, not_lt.mpr this]
    simp [hq1, hfb]
  have hsum : ((add_aag_rows order).map AagRow.price).sum =
      (order.items.length : ℚ) *
          round3 (fallbackBase order / (order.items.length : ℚ)) +
        order.tax.getD 0 + order.shipping.getD 0 := by
    simp only [add_aag_rows, List.map_append, List.map_map, List.sum_append,
      Function.comp_def]
    rw [sum_map_const_of _ _ _ hrow]
    simp
    ring
  refine ⟨hsum, ?_⟩
  rw [hsum]
  have hne0 : (order.items.length : ℚ) ≠ 0 := by
    have : (0 : ℚ) < (order.items.length : ℚ) := by exact_mod_cast hn1
    exact ne_of_gt this
  have hpos : (0 : ℚ) ≤ (order.items.length : ℚ) := by positivity
  have hsplit : (order.items.length : ℚ) *
      (fallbackBase order / (order.items.length : ℚ)) = fallbackBase order := by
    field_simp
  have heq : (order.items.length : ℚ) *
        round3 (fallbackBase order / (order.items.length : ℚ)) +
      order.tax.getD 0 + order.shipping.getD 0 - order.subtotal.getD 0 =
      (order.items.length : ℚ) *
        (round3 (fallbackBase order / (order.items.length : ℚ)) -
          fallbackBase order / (order.items.length : ℚ)) := by
    rw [mul_sub, hsplit]
    unfold fallbackBase
    ring
  rw [heq, abs_mul, abs_of_nonneg hpos]
  calc (order.items.length : ℚ) *
      |round3 (fallbackBase order / (order.items.length : ℚ)) -
        fallbackBase order / (order.items.length : ℚ)|
      ≤ (order.items.length : ℚ) * (1/2000) := by
        exact mul_le_mul_of_nonneg_left (abs_round3_sub_le _) hpos
    _ = (order.items.length : ℚ) / 2000 := by ring

/-- The spec scenario order for the C8 witness: `subtotal=100, tax=10,
shipping=5`, two items of quantity 1, no unit costs. -/
def c8GoodOrder : Order :=
  { purchase_order_number := "PO9", order_id := "APO9", sellercloud_order_id := "909"
    items := [("A", 1, none), ("B", 1, none)], tax := some 10, subtotal := some 100
    shipping := some 5, tracking_number := "T9", ship_date := "2025/07/07" }

/-- C8 witness: the amended theorem applied to the spec scenario (two unit
quantities, even split `(100-10-5)/2 = 42.5`). -/
theorem c8_unit_qty_fallback_sum_witness :
    (∀ it ∈ c8GoodOrder.items, ∀ c : ℚ, it.2.2 = some c → c ≤ 0) ∧
    (∀ it ∈ c8GoodOrder.items, it.2.1 = 1) ∧
    c8GoodOrder.items ≠ [] ∧
    (((add_aag_rows c8GoodOrder).map AagRow.price).sum =
        (c8GoodOrder.items.length : ℚ) *
            round3 (fallbackBase c8GoodOrder / (c8GoodOrder.items.length : ℚ)) +
          c8GoodOrder.tax.getD 0 + c8GoodOrder.shipping.getD 0 ∧
      |((add_aag_rows c8GoodOrder).map AagRow.price).sum - c8GoodOrder.subtotal.getD 0| ≤
        (c8GoodOrder.items.length : ℚ) / 2000) := by
  have h1 : ∀ it ∈ c8GoodOrder.items, ∀ c : ℚ, it.2.2 = some c → c ≤ 0 := by
    intro it hit c hc
    rcases List.mem_cons.mp hit with h | h
    · subst h; cases hc
    · rcases List.mem_cons.mp h with h2 | h2
      · subst h2; cases hc
      · cases h2
  have h2 : ∀ it ∈ c8GoodOrder.items, it.2.1 = 1 := by
    intro it hit
    rcases List.mem_cons.mp hit with h | h
    · subst h; rfl
    · rcases List.mem_cons.mp h with h2 | h2
      · subst h2; rfl
      · cases h2
  have h3 : c8GoodOrder.items ≠ [] := by simp [c8GoodOrder]
  exact ⟨h1, h2, h3, c8_unit_qty_fallback_sum c8GoodOrder h1 h2 h3⟩
